import Mathlib

/-!
Verification of the momail-backend triage decision engine.

The definitions below are shallow embeddings of the Python source:
- `AgentConfig`, `AgentConfig.get_whitelist`, `AgentConfig.get_blacklist`
  from `app/models/config.py`;
- `decide_action` from `AgentService.decide_action` in
  `app/services/agent_service.py`;
- `approve_action` from `app/api/action.py`;
- `execute_pending_actions` and `bulk_archive_sender` from `app/api/bulk.py`;
- `run_loop_sleeps` from `AgentService.run_loop` in
  `app/services/agent_service.py`.

Python strings are modelled as `String`, Python `None`/optional text as
`Option String`, raised exceptions as `Except String`.  External
collaborators (the Gmail provider and the LLM responder) are modelled by
explicit outcome parameters: the embedding receives what the external call
would have returned (or that it raised) and threads it exactly the way the
source does.
-/

/-- Python `s.lower()` restricted to the character-wise lowering Lean
provides; the source only ever compares ASCII e-mail addresses. -/
def pyLower (s : String) : String := String.mk (s.data.map Char.toLower)

/-- Python `s.strip()`: drop leading and trailing whitespace. -/
def pyStrip (l : List Char) : List Char :=
  ((l.dropWhile Char.isWhitespace).reverse.dropWhile Char.isWhitespace).reverse

/-- Python `s.split(",")` on a character list: split at every comma,
keeping empty pieces. -/
def splitComma : List Char → List (List Char)
  | [] => [[]]
  | c :: rest =>
    if c = ',' then [] :: splitComma rest
    else
      match splitComma rest with
      | [] => [[c]]
      | piece :: pieces => (c :: piece) :: pieces

/-- `needleIsPre n h` decides whether `n` is a leading segment of `h`. -/
def needleIsPre : List Char → List Char → Bool
  | [], _ => true
  | _ :: _, [] => false
  | a :: as, b :: bs => a = b && needleIsPre as bs

/-- `subOf n h` decides whether `n` occurs contiguously inside `h`
(Python `n in h` on strings). -/
def subOf (needle : List Char) : List Char → Bool
  | [] => needle.isEmpty
  | c :: rest => needleIsPre needle (c :: rest) || subOf needle rest

/-- Python `needle in hay` for strings. -/
def containsSub (hay needle : String) : Bool := subOf needle.data hay.data

/-- The single-row `agent_config` table (`app/models/config.py`). -/
structure AgentConfig where
  auto_reply_whitelist : String
  auto_reply_blacklist : String
  check_interval : Nat
  dry_run_mode : Bool
  enable_auto_reply : Bool
  enable_spam_filter : Bool
  enable_learning : Bool
deriving Repr, DecidableEq

/-- The column defaults of `AgentConfig` in `app/models/config.py`. -/
def defaultConfig : AgentConfig :=
  { auto_reply_whitelist := ""
    auto_reply_blacklist := "noreply@,no-reply@,donotreply@"
    check_interval := 60
    dry_run_mode := false
    enable_auto_reply := true
    enable_spam_filter := true
    enable_learning := false }

/-- `AgentConfig.get_whitelist`: split the stored text on commas, keep the
pieces whose strip is non-empty, and return each piece stripped and
lower-cased.  An empty stored text (Python falsy) yields `[]`. -/
def AgentConfig.get_whitelist (c : AgentConfig) : List String :=
  if c.auto_reply_whitelist = "" then []
  else
    ((splitComma c.auto_reply_whitelist.data).filter
        (fun e => !(pyStrip e).isEmpty)).map
      (fun e => String.mk ((pyStrip e).map Char.toLower))

/-- `AgentConfig.get_blacklist`: same parse as the whitelist, over the
blacklist column. -/
def AgentConfig.get_blacklist (c : AgentConfig) : List String :=
  if c.auto_reply_blacklist = "" then []
  else
    ((splitComma c.auto_reply_blacklist.data).filter
        (fun e => !(pyStrip e).isEmpty)).map
      (fun e => String.mk ((pyStrip e).map Char.toLower))

/-- The dict returned by `AgentService.decide_action`: keys `type`,
`message` (present only in the reply branch) and `reason`. -/
structure Decision where
  type : String
  message : Option String
  reason : String
deriving Repr, DecidableEq

/-- `AgentService.decide_action` (`app/services/agent_service.py` lines
155-226).  `from_addr` is `parsed_email['from']`; `replyGen` is the
outcome of the `generate_smart_reply` call (`Except.error` models the LLM
call raising; the source wraps it in no try/except, so a raise propagates
out of `decide_action`). -/
def decide_action (from_addr classification : String) (config : AgentConfig)
    (replyGen : Except String String) : Except String Decision :=
  let sender := pyLower from_addr
  let blacklist := config.get_blacklist
  let whitelist := config.get_whitelist
  if blacklist.any (fun blocked => containsSub sender blocked) then
    .ok ⟨"notify", none, "Blacklisted sender: " ++ sender⟩
  else if whitelist.any (fun allowed => containsSub sender allowed) then
    if classification = "routine" ∨ classification = "spam" ∨
        classification = "personal" then
      match replyGen with
      | .error e => .error e
      | .ok reply => .ok ⟨"reply", some reply, "Whitelisted sender - auto-reply"⟩
    else
      .ok ⟨"notify", none, "Urgent email from whitelisted sender"⟩
  else if classification = "urgent" then
    .ok ⟨"notify", none, "Urgent email requiring immediate attention"⟩
  else if classification = "routine" then
    .ok ⟨"notify", none, "Routine email from non-whitelisted sender"⟩
  else if classification = "spam" then
    .ok ⟨"archive", none, "Classified as spam"⟩
  else if classification = "personal" then
    .ok ⟨"notify", none, "Personal email"⟩
  else
    .ok ⟨"notify", none, "Unknown classification: " ++ classification⟩

deriving instance DecidableEq for Except

theorem needleIsPre_refl (l : List Char) : needleIsPre l l = true := by
  induction l with
  | nil => rfl
  | cons c cs ih => simp [needleIsPre, ih]

theorem subOf_append_self (pre l : List Char) : subOf l (pre ++ l) = true := by
  induction pre with
  | nil =>
    cases l with
    | nil => rfl
    | cons c cs => simp [subOf, needleIsPre_refl]
  | cons c cs ih => simp [subOf, ih]

theorem containsSub_append_right (a b : String) : containsSub (a ++ b) b = true := by
  unfold containsSub
  rw [String.data_append]
  exact subOf_append_self a.data b.data

theorem append_length_pos (a b : String) (h : 0 < a.length) :
    0 < (a ++ b).length := by
  rw [String.length_append]
  omega

/-- Configuration used by several decision-policy instantiations below:
whitelist entry `partner.com`, empty blacklist. -/
def whitelistOnlyConfig : AgentConfig :=
  { defaultConfig with
    auto_reply_whitelist := "partner.com"
    auto_reply_blacklist := "" }

/-- C1: for every sender whose lower-cased address contains some blacklist
entry as a substring, `decide_action` returns the notify action, whatever
the classification, the whitelist and the responder outcome are. -/
theorem blacklist_forces_notify (from_addr classification : String)
    (config : AgentConfig) (replyGen : Except String String) (b : String)
    (hmem : b ∈ config.get_blacklist)
    (hsub : containsSub (pyLower from_addr) b = true) :
    decide_action from_addr classification config replyGen =
      .ok ⟨"notify", none, "Blacklisted sender: " ++ pyLower from_addr⟩ := by
  have hany :
      (config.get_blacklist.any fun blocked =>
        containsSub (pyLower from_addr) blocked) = true :=
    List.any_eq_true.mpr ⟨b, hmem, hsub⟩
  unfold decide_action
  simp [hany]

/-- Witness for C1 at the spec's own example: sender
`Spam@Newsletter.biz`, blacklist entry `newsletter`, classification
`urgent`, with the domain even whitelisted. -/
theorem blacklist_forces_notify_witness :
    "newsletter" ∈ (AgentConfig.get_blacklist
        { defaultConfig with
          auto_reply_blacklist := "newsletter"
          auto_reply_whitelist := "newsletter.biz" })
    ∧ containsSub (pyLower "Spam@Newsletter.biz") "newsletter" = true
    ∧ decide_action "Spam@Newsletter.biz" "urgent"
        { defaultConfig with
          auto_reply_blacklist := "newsletter"
          auto_reply_whitelist := "newsletter.biz" } (.ok "draft")
        = .ok ⟨"notify", none, "Blacklisted sender: " ++ pyLower "Spam@Newsletter.biz"⟩ :=
  ⟨by decide, by decide,
    blacklist_forces_notify "Spam@Newsletter.biz" "urgent"
      { defaultConfig with
        auto_reply_blacklist := "newsletter"
        auto_reply_whitelist := "newsletter.biz" }
      (.ok "draft") "newsletter" (by decide) (by decide)⟩

/-- C2 counterexample: sender `vip@partner.com` is whitelisted and not
blacklisted, the classification is `spam`, and the responder returns the
empty string; `decide_action` then proposes a `reply` whose suggested
content is the empty string, refuting the claim's "non-empty suggested
content". -/
theorem whitelist_reply_empty_content_cex :
    (whitelistOnlyConfig.get_blacklist.any fun blocked =>
        containsSub (pyLower "vip@partner.com") blocked) = false
    ∧ (whitelistOnlyConfig.get_whitelist.any fun allowed =>
        containsSub (pyLower "vip@partner.com") allowed) = true
    ∧ decide_action "vip@partner.com" "spam" whitelistOnlyConfig (.ok "")
        = .ok ⟨"reply", some "", "Whitelisted sender - auto-reply"⟩
    ∧ ("" : String).length = 0 := by decide

/-- C2 (amended): for a whitelisted, non-blacklisted sender with
classification in {routine, spam, personal}, `decide_action` returns
`reply` whose suggested content is exactly the responder's output (so it
is non-empty exactly when the responder's text is); for classification
`urgent` it returns `notify`, never `reply`. -/
theorem whitelist_reply_uses_responder_output
    (from_addr classification : String) (config : AgentConfig) (reply : String)
    (hb : (config.get_blacklist.any fun blocked =>
        containsSub (pyLower from_addr) blocked) = false)
    (hw : (config.get_whitelist.any fun allowed =>
        containsSub (pyLower from_addr) allowed) = true) :
    ((classification = "routine" ∨ classification = "spam" ∨
        classification = "personal") →
      decide_action from_addr classification config (.ok reply)
        = .ok ⟨"reply", some reply, "Whitelisted sender - auto-reply"⟩)
    ∧ (classification = "urgent" →
      decide_action from_addr classification config (.ok reply)
        = .ok ⟨"notify", none, "Urgent email from whitelisted sender"⟩) := by
  constructor
  · intro h
    unfold decide_action
    simp [hb, hw, h]
  · intro h
    subst h
    unfold decide_action
    simp [hb, hw]

/-- Witness for the amended C2 at sender `vip@partner.com`,
classification `spam`, responder text `Thanks for reaching out.`. -/
theorem whitelist_reply_uses_responder_output_witness :
    (whitelistOnlyConfig.get_blacklist.any fun blocked =>
        containsSub (pyLower "vip@partner.com") blocked) = false
    ∧ (whitelistOnlyConfig.get_whitelist.any fun allowed =>
        containsSub (pyLower "vip@partner.com") allowed) = true
    ∧ ((("spam" : String) = "routine" ∨ ("spam" : String) = "spam" ∨
          ("spam" : String) = "personal") →
        decide_action "vip@partner.com" "spam" whitelistOnlyConfig
            (.ok "Thanks for reaching out.")
          = .ok ⟨"reply", some "Thanks for reaching out.",
              "Whitelisted sender - auto-reply"⟩)
    ∧ ((("spam" : String) = "urgent") →
        decide_action "vip@partner.com" "spam" whitelistOnlyConfig
            (.ok "Thanks for reaching out.")
          = .ok ⟨"notify", none, "Urgent email from whitelisted sender"⟩) :=
  ⟨by decide, by decide,
    (whitelist_reply_uses_responder_output "vip@partner.com" "spam"
      whitelistOnlyConfig "Thanks for reaching out." (by decide) (by decide)).1,
    (whitelist_reply_uses_responder_output "vip@partner.com" "spam"
      whitelistOnlyConfig "Thanks for reaching out." (by decide) (by decide)).2⟩

/-- C3: for a sender that is neither blacklisted nor whitelisted,
`decide_action` maps the classification exactly as urgent→notify,
routine→notify, spam→archive, personal→notify, and any other label yields
`notify` with the label contained in the reason — an action is always
returned. -/
theorem nonlisted_classification_mapping
    (from_addr classification : String) (config : AgentConfig)
    (replyGen : Except String String)
    (hb : (config.get_blacklist.any fun blocked =>
        containsSub (pyLower from_addr) blocked) = false)
    (hw : (config.get_whitelist.any fun allowed =>
        containsSub (pyLower from_addr) allowed) = false) :
    (classification = "urgent" →
      decide_action from_addr classification config replyGen
        = .ok ⟨"notify", none, "Urgent email requiring immediate attention"⟩)
    ∧ (classification = "routine" →
      decide_action from_addr classification config replyGen
        = .ok ⟨"notify", none, "Routine email from non-whitelisted sender"⟩)
    ∧ (classification = "spam" →
      decide_action from_addr classification config replyGen
        = .ok ⟨"archive", none, "Classified as spam"⟩)
    ∧ (classification = "personal" →
      decide_action from_addr classification config replyGen
        = .ok ⟨"notify", none, "Personal email"⟩)
    ∧ (classification ≠ "urgent" → classification ≠ "routine" →
        classification ≠ "spam" → classification ≠ "personal" →
      decide_action from_addr classification config replyGen
        = .ok ⟨"notify", none, "Unknown classification: " ++ classification⟩
      ∧ containsSub ("Unknown classification: " ++ classification)
          classification = true) := by
  refine ⟨?_, ?_, ?_, ?_, ?_⟩
  · intro h; subst h; unfold decide_action; simp [hb, hw]
  · intro h; subst h; unfold decide_action; simp [hb, hw]
  · intro h; subst h; unfold decide_action; simp [hb, hw]
  · intro h; subst h; unfold decide_action; simp [hb, hw]
  · intro h1 h2 h3 h4
    refine ⟨?_, containsSub_append_right _ _⟩
    unfold decide_action
    simp [hb, hw, h1, h2, h3, h4]

/-- Witness for C3: sender `boss@company.com` against the default config
(empty whitelist, no-reply blacklist), classification `urgent`. -/
theorem nonlisted_classification_mapping_witness :
    (defaultConfig.get_blacklist.any fun blocked =>
        containsSub (pyLower "boss@company.com") blocked) = false
    ∧ (defaultConfig.get_whitelist.any fun allowed =>
        containsSub (pyLower "boss@company.com") allowed) = false
    ∧ decide_action "boss@company.com" "urgent" defaultConfig (.ok "x")
        = .ok ⟨"notify", none, "Urgent email requiring immediate attention"⟩
    ∧ decide_action "boss@company.com" "weird-label" defaultConfig (.ok "x")
        = .ok ⟨"notify", none, "Unknown classification: " ++ "weird-label"⟩ :=
  ⟨by decide, by decide,
    (nonlisted_classification_mapping "boss@company.com" "urgent"
      defaultConfig (.ok "x") (by decide) (by decide)).1 rfl,
    ((nonlisted_classification_mapping "boss@company.com" "weird-label"
      defaultConfig (.ok "x") (by decide) (by decide)).2.2.2.2
      (by decide) (by decide) (by decide) (by decide)).1⟩

/-- C7 counterexample: whitelisted sender, classification `routine`, and
the responder raising; `decide_action` propagates the failure instead of
returning a `notify` action. -/
theorem responder_failure_propagates_cex :
    decide_action "vip@partner.com" "routine" whitelistOnlyConfig
      (.error "LLM unavailable") = .error "LLM unavailable" := by decide

/-- C7 (amended): when reply generation fails for a whitelisted,
non-blacklisted sender with classification in {routine, spam, personal},
`decide_action` does not degrade to `notify`: the failure propagates to
the caller unchanged (so no action — in particular no empty reply — is
proposed; `process_email`'s caller catches it per email). -/
theorem responder_failure_propagates
    (from_addr classification : String) (config : AgentConfig) (err : String)
    (hb : (config.get_blacklist.any fun blocked =>
        containsSub (pyLower from_addr) blocked) = false)
    (hw : (config.get_whitelist.any fun allowed =>
        containsSub (pyLower from_addr) allowed) = true)
    (hc : classification = "routine" ∨ classification = "spam" ∨
        classification = "personal") :
    decide_action from_addr classification config (.error err)
      = .error err := by
  unfold decide_action
  simp [hb, hw, hc]

/-- Witness for the amended C7. -/
theorem responder_failure_propagates_witness :
    (whitelistOnlyConfig.get_blacklist.any fun blocked =>
        containsSub (pyLower "vip@partner.com") blocked) = false
    ∧ (whitelistOnlyConfig.get_whitelist.any fun allowed =>
        containsSub (pyLower "vip@partner.com") allowed) = true
    ∧ (("routine" : String) = "routine" ∨ ("routine" : String) = "spam" ∨
        ("routine" : String) = "personal")
    ∧ decide_action "vip@partner.com" "routine" whitelistOnlyConfig
        (.error "timeout") = .error "timeout" :=
  ⟨by decide, by decide, Or.inl rfl,
    responder_failure_propagates "vip@partner.com" "routine"
      whitelistOnlyConfig "timeout" (by decide) (by decide) (Or.inl rfl)⟩

/-- C10: on any input with a successful responder outcome,
`decide_action` returns an action whose kind is notify, reply or archive
(never `skip`), whose reason is non-empty, and which carries a `message`
field exactly when the kind is `reply`. -/
theorem decide_action_shape (from_addr classification : String)
    (config : AgentConfig) (reply : String) :
    ∃ d, decide_action from_addr classification config (.ok reply) = .ok d
      ∧ (d.type = "notify" ∨ d.type = "reply" ∨ d.type = "archive")
      ∧ d.type ≠ "skip"
      ∧ 0 < d.reason.length
      ∧ (d.message.isSome ↔ d.type = "reply") := by
  by_cases hbl : (config.get_blacklist.any fun blocked =>
      containsSub (pyLower from_addr) blocked) = true
  case pos =>
    have hEq : decide_action from_addr classification config (.ok reply)
        = .ok ⟨"notify", none, "Blacklisted sender: " ++ pyLower from_addr⟩ := by
      simp [decide_action, hbl]
    exact ⟨_, hEq, Or.inl rfl,
      by show ("notify" : String) ≠ "skip"; decide,
      append_length_pos _ _ (by decide),
      by show (none : Option String).isSome = true ↔ ("notify" : String) = "reply"; decide⟩
  case neg =>
    rw [Bool.not_eq_true] at hbl
    by_cases hwl : (config.get_whitelist.any fun allowed =>
        containsSub (pyLower from_addr) allowed) = true
    case pos =>
      by_cases hcls : classification = "routine" ∨ classification = "spam" ∨
          classification = "personal"
      case pos =>
        have hEq : decide_action from_addr classification config (.ok reply)
            = .ok ⟨"reply", some reply, "Whitelisted sender - auto-reply"⟩ := by
          simp [decide_action, hbl, hwl, hcls]
        exact ⟨_, hEq, Or.inr (Or.inl rfl),
          by show ("reply" : String) ≠ "skip"; decide,
          by show 0 < ("Whitelisted sender - auto-reply" : String).length; decide,
          by show (some reply).isSome = true ↔ ("reply" : String) = "reply"; simp⟩
      case neg =>
        have hEq : decide_action from_addr classification config (.ok reply)
            = .ok ⟨"notify", none, "Urgent email from whitelisted sender"⟩ := by
          simp [decide_action, hbl, hwl, hcls]
        exact ⟨_, hEq, Or.inl rfl,
          by show ("notify" : String) ≠ "skip"; decide,
          by show 0 < ("Urgent email from whitelisted sender" : String).length; decide,
          by show (none : Option String).isSome = true ↔ ("notify" : String) = "reply"; decide⟩
    case neg =>
      rw [Bool.not_eq_true] at hwl
      by_cases h1 : classification = "urgent"
      case pos =>
        have hEq : decide_action from_addr classification config (.ok reply)
            = .ok ⟨"notify", none, "Urgent email requiring immediate attention"⟩ := by
          simp [decide_action, hbl, hwl, h1]
        exact ⟨_, hEq, Or.inl rfl,
          by show ("notify" : String) ≠ "skip"; decide,
          by show 0 < ("Urgent email requiring immediate attention" : String).length; decide,
          by show (none : Option String).isSome = true ↔ ("notify" : String) = "reply"; decide⟩
      case neg =>
      by_cases h2 : classification = "routine"
      case pos =>
        have hEq : decide_action from_addr classification config (.ok reply)
            = .ok ⟨"notify", none, "Routine email from non-whitelisted sender"⟩ := by
          simp [decide_action, hbl, hwl, h1, h2]
        exact ⟨_, hEq, Or.inl rfl,
          by show ("notify" : String) ≠ "skip"; decide,
          by show 0 < ("Routine email from non-whitelisted sender" : String).length; decide,
          by show (none : Option String).isSome = true ↔ ("notify" : String) = "reply"; decide⟩
      case neg =>
      by_cases h3 : classification = "spam"
      case pos =>
        have hEq : decide_action from_addr classification config (.ok reply)
            = .ok ⟨"archive", none, "Classified as spam"⟩ := by
          simp [decide_action, hbl, hwl, h1, h2, h3]
        exact ⟨_, hEq, Or.inr (Or.inr rfl),
          by show ("archive" : String) ≠ "skip"; decide,
          by show 0 < ("Classified as spam" : String).length; decide,
          by show (none : Option String).isSome = true ↔ ("archive" : String) = "reply"; decide⟩
      case neg =>
      by_cases h4 : classification = "personal"
      case pos =>
        have hEq : decide_action from_addr classification config (.ok reply)
            = .ok ⟨"notify", none, "Personal email"⟩ := by
          simp [decide_action, hbl, hwl, h1, h2, h3, h4]
        exact ⟨_, hEq, Or.inl rfl,
          by show ("notify" : String) ≠ "skip"; decide,
          by show 0 < ("Personal email" : String).length; decide,
          by show (none : Option String).isSome = true ↔ ("notify" : String) = "reply"; decide⟩
      case neg =>
        have hEq : decide_action from_addr classification config (.ok reply)
            = .ok ⟨"notify", none, "Unknown classification: " ++ classification⟩ := by
          simp [decide_action, hbl, hwl, h1, h2, h3, h4]
        exact ⟨_, hEq, Or.inl rfl,
          by show ("notify" : String) ≠ "skip"; decide,
          append_length_pos _ _ (by decide),
          by show (none : Option String).isSome = true ↔ ("notify" : String) = "reply"; decide⟩

/-- A row of the `emails` table (`app/models/email.py`), restricted to the
fields the action endpoints read. -/
structure EmailRec where
  id : String
  thread_id : String
  from_address : String
  to_address : String
  subject : String
  processed : Bool
deriving Repr, DecidableEq

/-- A row of the `actions` table (`app/models/action.py`). -/
structure ActionRec where
  email_id : String
  action_type : String
  status : String
  suggested_reply : Option String
  actual_reply : Option String
  reason : String
deriving Repr, DecidableEq

/-- The `ActionApprove` request schema (`app/schemas/action.py`). -/
structure Approval where
  approved : Bool
  edited_reply : Option String
deriving Repr, DecidableEq

/-- One `gmail_client.send_email(...)` invocation, by its arguments
(`to_addr` is the Python `to=` keyword argument). -/
structure SendCall where
  to_addr : String
  subject : String
  body : Option String
  thread_id : String
deriving Repr, DecidableEq

/-- The sent-mail `Email` row persisted by `approve_action` after a reply
is dispatched. -/
structure SentEmail where
  id : String
  thread_id : String
  from_address : String
  to_address : String
  subject : String
  body : String
  snippet : String
  classification : String
  processed : Bool
deriving Repr, DecidableEq

/-- Python truthiness of an optional string: `None` and `""` are falsy. -/
def optTruthy : Option String → Bool
  | none => false
  | some s => s != ""

/-- Python `a or b` on optional strings. -/
def optOr (a b : Option String) : Option String :=
  if optTruthy a then a else b

/-- A single-quote character, used to reproduce the source's error text. -/
def squote : String := (Char.ofNat 39).toString

/-- The committed result of a successful `approve_action` call:
the updated action row, the email's processed flag, the sequence of
status values assigned during the call, the provider calls made, and the
sent-mail row persisted (reply dispatch only). -/
structure ApproveOutcome where
  action : ActionRec
  email_processed : Bool
  statusTrace : List String
  sends : List SendCall
  archives : List String
  sent_record : Option SentEmail
deriving Repr, DecidableEq

/-- `approve_action` (`app/api/action.py` lines 43-143).  `email` is the
row `action.email_id` refers to; `sendResult` is the outcome of the
provider call the body would make (`.error` = the call raised,
`.ok mid` = it returned a message whose `id` is `mid`).  `Except.error`
models an exception leaving the handler: the session is closed without
commit, so no state change is persisted (the external send, if it already
happened, is not undone — only the database rolls back).  Guard failures
reproduce the source's `HTTPException` detail strings.  The source's
`re.sub`-normalised `reply_subject` is computed but never used (the send
uses `f"Re: {email.subject}"` directly), so it is not modelled; the
source's unreachable final `else: action.status = "rejected"` branch
(line 139) is dead code and not modelled either. -/
def approve_action (action : ActionRec) (approval : Approval)
    (email : EmailRec) (sendResult : Except String (Option String)) :
    Except String ApproveOutcome :=
  if action.status = "executed" ∨ action.status = "approved" then
    .error ("Action already " ++ action.status ++ ". Cannot execute again.")
  else if action.status = "rejected" then
    .error "Action already rejected. Cannot change status."
  else if action.status ≠ "pending" then
    .error ("Action has status " ++ squote ++ action.status ++ squote ++
      ". Only pending actions can be approved.")
  else if approval.approved = false then
    .ok { action := { action with status := "rejected" }
          email_processed := email.processed
          statusTrace := ["rejected"]
          sends := [], archives := [], sent_record := none }
  else
    let a1 := { action with status := "approved" }
    let a2 := if optTruthy approval.edited_reply then
        { a1 with actual_reply := approval.edited_reply }
      else a1
    if action.action_type = "reply" then
      match sendResult with
      | .error e => .error e
      | .ok mid =>
        let call : SendCall :=
          { to_addr := email.from_address
            subject := "Re: " ++ email.subject
            body := action.suggested_reply
            thread_id := email.thread_id }
        let a3 := { a2 with actual_reply := action.suggested_reply }
        match mid with
        | none => .error "NameError: name sent_email is not defined"
        | some sentId =>
          match optOr approval.edited_reply action.suggested_reply with
          | none => .error "TypeError: NoneType is not subscriptable"
          | some bodyText =>
            .ok { action := { a3 with status := "executed" }
                  email_processed := true
                  statusTrace := ["approved", "executed"]
                  sends := [call]
                  archives := []
                  sent_record := some
                    { id := sentId
                      thread_id := email.thread_id
                      from_address := email.to_address
                      to_address := email.from_address
                      subject := "Re: " ++ email.subject
                      body := bodyText
                      snippet := String.mk (bodyText.data.take 200)
                      classification := "sent"
                      processed := true } }
    else if action.action_type = "archive" then
      match sendResult with
      | .error e => .error e
      | .ok _ =>
        .ok { action := { a2 with status := "executed" }
              email_processed := true
              statusTrace := ["approved", "executed"]
              sends := [], archives := [email.id], sent_record := none }
    else
      .ok { action := { a2 with status := "executed" }
            email_processed := true
            statusTrace := ["approved", "executed"]
            sends := [], archives := [], sent_record := none }

/-- C4: from `pending`, reject succeeds (final status `rejected`) and
approve succeeds assigning `approved` then `executed`; from any of the
statuses `approved`, `rejected`, `executed`, `failed`, any approval
request fails with an error message containing the current status, and
(being an `Except.error` raised before any commit) changes no state. -/
theorem action_lifecycle (action : ActionRec) (approval : Approval)
    (email : EmailRec) (sendId : String)
    (hpend : action.status = "pending")
    (hcontent : action.action_type = "reply" →
      (optOr approval.edited_reply action.suggested_reply).isSome = true) :
    ((approve_action action
        { approved := false, edited_reply := approval.edited_reply } email
        (.ok (some sendId))).map
      (fun out => (out.action.status, out.statusTrace))
      = .ok ("rejected", ["rejected"]))
    ∧ (approval.approved = true →
      (approve_action action approval email (.ok (some sendId))).map
        (fun out => (out.statusTrace, out.action.status))
        = .ok (["approved", "executed"], "executed"))
    ∧ (∀ s, (s = "approved" ∨ s = "rejected" ∨ s = "executed" ∨ s = "failed") →
      ∀ ap2 : Approval, ∃ msg,
        approve_action { action with status := s } ap2 email
          (.ok (some sendId)) = .error msg
        ∧ containsSub msg s = true) := by
  refine ⟨?_, ?_, ?_⟩
  · simp [approve_action, hpend, Except.map]
  · intro hap
    by_cases hr : action.action_type = "reply"
    · obtain ⟨bt, hbt⟩ := Option.isSome_iff_exists.mp (hcontent hr)
      by_cases hed : optTruthy approval.edited_reply = true
      · simp [approve_action, hpend, hap, hr, hbt, hed, Except.map]
      · simp [approve_action, hpend, hap, hr, hbt, hed, Except.map]
    · by_cases ha : action.action_type = "archive"
      · by_cases hed : optTruthy approval.edited_reply = true
        · simp [approve_action, hpend, hap, hr, ha, hed, Except.map]
        · simp [approve_action, hpend, hap, hr, ha, hed, Except.map]
      · by_cases hed : optTruthy approval.edited_reply = true
        · simp [approve_action, hpend, hap, hr, ha, hed, Except.map]
        · simp [approve_action, hpend, hap, hr, ha, hed, Except.map]
  · intro s hs ap2
    rcases hs with h | h | h | h <;> subst h
    · exact ⟨"Action already " ++ "approved" ++ ". Cannot execute again.",
        by simp [approve_action], by decide⟩
    · exact ⟨"Action already rejected. Cannot change status.",
        by simp [approve_action], by decide⟩
    · exact ⟨"Action already " ++ "executed" ++ ". Cannot execute again.",
        by simp [approve_action], by decide⟩
    · exact ⟨"Action has status " ++ squote ++ "failed" ++ squote ++
          ". Only pending actions can be approved.",
        by simp [approve_action], by decide⟩

/-- A pending notify action, used to witness C4. -/
def pendingNotifyAction : ActionRec :=
  { email_id := "m1", action_type := "notify", status := "pending"
    suggested_reply := none, actual_reply := none
    reason := "Urgent email requiring immediate attention" }

/-- The email row `pendingNotifyAction` refers to. -/
def sampleEmail : EmailRec :=
  { id := "m1", thread_id := "t1", from_address := "boss@company.com"
    to_address := "me@momail.com", subject := "Status update"
    processed := false }

/-- Witness for C4: reject and approve from `pending`, and the guard
failure on an already-rejected action, at concrete rows. -/
theorem action_lifecycle_witness :
    ((approve_action pendingNotifyAction
        { approved := false, edited_reply := none } sampleEmail
        (.ok (some "sent1"))).map
      (fun out => (out.action.status, out.statusTrace))
      = .ok ("rejected", ["rejected"]))
    ∧ ((approve_action pendingNotifyAction
        { approved := true, edited_reply := none } sampleEmail
        (.ok (some "sent1"))).map
      (fun out => (out.statusTrace, out.action.status))
      = .ok (["approved", "executed"], "executed"))
    ∧ (∃ msg, approve_action { pendingNotifyAction with status := "rejected" }
        { approved := true, edited_reply := none } sampleEmail
        (.ok (some "sent1")) = .error msg
      ∧ containsSub msg "rejected" = true) :=
  ⟨(action_lifecycle pendingNotifyAction { approved := true, edited_reply := none }
      sampleEmail "sent1" (by decide) (by decide)).1,
    (action_lifecycle pendingNotifyAction { approved := true, edited_reply := none }
      sampleEmail "sent1" (by decide) (by decide)).2.1 rfl,
    (action_lifecycle pendingNotifyAction { approved := true, edited_reply := none }
      sampleEmail "sent1" (by decide) (by decide)).2.2 "rejected"
      (Or.inr (Or.inl rfl)) { approved := true, edited_reply := none }⟩

/-- A pending reply action with a suggested draft, used for C5. -/
def pendingReplyAction : ActionRec :=
  { email_id := "m2", action_type := "reply", status := "pending"
    suggested_reply := some "Suggested draft", actual_reply := none
    reason := "Whitelisted sender - auto-reply" }

/-- The email row `pendingReplyAction` refers to. -/
def replyEmail : EmailRec :=
  { id := "m2", thread_id := "t2", from_address := "vip@partner.com"
    to_address := "me@momail.com", subject := "Renewal", processed := false }

/-- C5: approving `pendingReplyAction` with edited reply
`"Edited by human"` sends the *suggested* draft (not the edited text) and
ends with `actual_reply` equal to the suggested draft; the edited text
survives only as the body of the persisted sent-mail row.  The dispatched
content is therefore not the edited content supplied at approval. -/
theorem approve_action_ignores_edited_reply :
    (approve_action pendingReplyAction
        { approved := true, edited_reply := some "Edited by human" }
        replyEmail (.ok (some "sent2"))).map
      (fun out => (out.sends, out.action.actual_reply,
        out.action.suggested_reply, out.sent_record.map SentEmail.body))
    = .ok ([{ to_addr := "vip@partner.com", subject := "Re: Renewal"
              body := some "Suggested draft", thread_id := "t2" }],
        some "Suggested draft", some "Suggested draft",
        some "Edited by human") := by decide

/-- The `messages`/`actions` portion of the database visible to the bulk
endpoints (`app/api/bulk.py`). -/
structure BulkDb where
  emails : List EmailRec
  actions : List ActionRec
deriving Repr, DecidableEq

/-- `bulk_archive_sender` (`app/api/bulk.py` lines 116-188).  Returns the
updated database, the provider archive calls made, the archived count and
the failed count.  `providerOk` is the outcome of the per-email
`gmail_client.archive` calls (taken uniform across the batch): when it is
`false` in Gmail mode every call raises, the failure is collected
per-email, and neither the processed flag nor an action row is written
for that email.  In both modes, each matching email gets a *new* action
row appended (status `executed` in Gmail mode, `pending` in DB-only
mode), regardless of any action rows that already exist for it. -/
def bulk_archive_sender (db : BulkDb) (sender : String)
    (execute_in_gmail : Bool) (providerOk : Bool) :
    BulkDb × List String × Nat × Nat :=
  let matching := db.emails.filter (fun e => e.from_address == sender)
  if matching.isEmpty then (db, [], 0, 0)
  else if execute_in_gmail then
    if providerOk then
      ({ emails := db.emails.map (fun e =>
            if e.from_address == sender then { e with processed := true } else e)
         actions := db.actions ++ matching.map (fun e =>
            { email_id := e.id, action_type := "archive", status := "executed"
              suggested_reply := none, actual_reply := none
              reason := "Bulk archived sender " ++ sender }) },
        matching.map (fun e => e.id), matching.length, 0)
    else (db, [], 0, matching.length)
  else
    ({ emails := db.emails.map (fun e =>
          if e.from_address == sender then { e with processed := true } else e)
       actions := db.actions ++ matching.map (fun e =>
          { email_id := e.id, action_type := "archive", status := "pending"
            suggested_reply := none, actual_reply := none
            reason := "Bulk archived sender " ++ sender }) },
      [], matching.length, 0)

/-- A database in which the single email from `person@gmail.com` is
already archived (processed) and already carries the pending archive
action a previous DB-only bulk-archive call created. -/
def alreadyArchivedDb : BulkDb :=
  { emails := [{ id := "m3", thread_id := "t3"
                 from_address := "person@gmail.com"
                 to_address := "me@momail.com", subject := "Old thread"
                 processed := true }]
    actions := [{ email_id := "m3", action_type := "archive"
                  status := "pending", suggested_reply := none
                  actual_reply := none
                  reason := "Bulk archived sender person@gmail.com" }] }

/-- C9 counterexample: re-invoking DB-only bulk-archive on
`alreadyArchivedDb` (whose one message is already processed and already
has a pending archive action) appends a second `pending` archive action
for the same message — a duplicate non-terminal action. -/
theorem bulk_archive_duplicates_pending_cex :
    ((bulk_archive_sender alreadyArchivedDb "person@gmail.com" false
        true).1.actions.filter
      (fun a => a.email_id == "m3" &&
        (a.status == "pending" || a.status == "approved"))).length = 2 := by
  decide

/-- C9 (amended): bulk-archive never errors when re-archiving — failures
are collected per email, and re-invocation is accepted; in Gmail-execute
mode (with the provider succeeding) every appended action row is terminal
(`executed`), so no non-terminal duplicate arises there; but in DB-only
mode every invocation appends a fresh `pending` (non-terminal) action row
per matching message, so re-archiving does duplicate non-terminal
actions. -/
theorem bulk_archive_rearchive (db : BulkDb) (sender : String)
    (providerOk : Bool) :
    (((bulk_archive_sender db sender true true).1.actions.drop
        db.actions.length).all (fun a => a.status == "executed") = true)
    ∧ (((bulk_archive_sender db sender false providerOk).1.actions.drop
        db.actions.length).all (fun a => a.status == "pending") = true) := by
  constructor
  · unfold bulk_archive_sender
    by_cases h : (db.emails.filter (fun e => e.from_address == sender)).isEmpty
    · simp [h, List.drop_length]
    · simp [h, List.drop_left]
      intro x e _ _ hx
      subst hx
      rfl
  · unfold bulk_archive_sender
    by_cases h : (db.emails.filter (fun e => e.from_address == sender)).isEmpty
    · simp [h, List.drop_length]
    · simp [h, List.drop_left]
      intro x e _ _ hx
      subst hx
      rfl

/-- The per-selected-action state accumulated by
`execute_pending_actions`: the evolving email rows, the action rows
written back, the provider calls, and the executed/failed tallies. -/
structure ExecSt where
  emails : List EmailRec
  doneActions : List ActionRec
  sends : List SendCall
  archives : List String
  executed : Nat
  failures : List String
deriving Repr, DecidableEq

/-- Mark one email row processed. -/
def markProcessed (emails : List EmailRec) (emailId : String) :
    List EmailRec :=
  emails.map (fun e => if e.id == emailId then { e with processed := true } else e)

/-- Process one approved action inside `execute_pending_actions`'s loop
(`app/api/bulk.py` lines 215-248).  A missing email row makes the body
raise (`email.from_address` on `None`), which the `except` turns into
status `failed`; a provider failure likewise.  Any other action type goes
straight to `executed` with no provider call. -/
def exec_one (providerOk : Bool) (st : ExecSt) (a : ActionRec) : ExecSt :=
  match st.emails.find? (fun e => e.id == a.email_id) with
  | none =>
    { st with
      doneActions := st.doneActions ++ [{ a with status := "failed" }],
      failures := st.failures ++ [a.email_id] }
  | some e =>
    if a.action_type = "reply" then
      if providerOk then
        let call : SendCall :=
          { to_addr := e.from_address
            subject := "Re: " ++ e.subject
            body := a.suggested_reply
            thread_id := e.thread_id }
        { st with
          sends := st.sends ++ [call],
          doneActions := st.doneActions ++
            [{ a with status := "executed", actual_reply := a.suggested_reply }],
          emails := markProcessed st.emails e.id,
          executed := st.executed + 1 }
      else
        { st with
          doneActions := st.doneActions ++ [{ a with status := "failed" }],
          failures := st.failures ++ [a.email_id] }
    else if a.action_type = "archive" then
      if providerOk then
        { st with
          archives := st.archives ++ [e.id],
          doneActions := st.doneActions ++ [{ a with status := "executed" }],
          emails := markProcessed st.emails e.id,
          executed := st.executed + 1 }
      else
        { st with
          doneActions := st.doneActions ++ [{ a with status := "failed" }],
          failures := st.failures ++ [a.email_id] }
    else
      { st with
        doneActions := st.doneActions ++ [{ a with status := "executed" }],
        emails := markProcessed st.emails e.id,
        executed := st.executed + 1 }

/-- `execute_pending_actions` (`app/api/bulk.py` lines 190-256): run
every action whose status is `approved` (optionally restricted to one
action type).  `cfg` is the configuration row in force: the source never
queries `AgentConfig` here — in particular it never reads
`dry_run_mode` — so the parameter is unused by the body, exactly as in
the source. -/
def execute_pending_actions (cfg : AgentConfig)
    (action_type_filter : Option String) (db : BulkDb)
    (providerOk : Bool) : ExecSt :=
  let selected := fun (a : ActionRec) =>
    a.status == "approved" &&
      (match action_type_filter with
       | none => true
       | some t => a.action_type == t)
  db.actions.foldl
    (fun st a =>
      if selected a then exec_one providerOk st a
      else { st with doneActions := st.doneActions ++ [a] })
    { emails := db.emails, doneActions := [], sends := [], archives := []
      executed := 0, failures := [] }

/-- An approved reply action awaiting bulk execution, with its email. -/
def dryRunDb : BulkDb :=
  { emails := [{ id := "m4", thread_id := "t4"
                 from_address := "vip@partner.com"
                 to_address := "me@momail.com", subject := "Renewal"
                 processed := false }]
    actions := [{ email_id := "m4", action_type := "reply"
                  status := "approved"
                  suggested_reply := some "Suggested draft"
                  actual_reply := none
                  reason := "Whitelisted sender - auto-reply" }] }

/-- C6: with `dry_run_mode := true` in the configuration,
`execute_pending_actions` still issues the external send call (the source
never reads `dry_run_mode`), while transitioning the action to `executed`
and recording the actual content — the claimed "no external send" is
false on the code. -/
theorem execute_pending_sends_in_dry_run :
    (execute_pending_actions { defaultConfig with dry_run_mode := true }
        none dryRunDb true).sends
      = [{ to_addr := "vip@partner.com", subject := "Re: Renewal"
           body := some "Suggested draft", thread_id := "t4" }]
    ∧ (execute_pending_actions { defaultConfig with dry_run_mode := true }
        none dryRunDb true).doneActions.map (fun a => (a.status, a.actual_reply))
      = [("executed", some "Suggested draft")]
    ∧ (∀ cfg cfg2 : AgentConfig, ∀ filt db pOk,
        execute_pending_actions cfg filt db pOk
          = execute_pending_actions cfg2 filt db pOk) :=
  ⟨by decide, by decide, fun _ _ _ _ _ => rfl⟩

/-- The sleep durations `run_loop` performs, one per iteration
(`app/services/agent_service.py` lines 228-261): each iteration — also
the exception path — sleeps `check_interval`, the argument the loop was
started with (both call sites in `app/main.py` pass no argument, so it is
the default 60).  The list argument carries the configuration row as it
stands at each iteration; the body never consults it for the interval. -/
def run_loop_sleeps (check_interval : Nat) : List AgentConfig → List Nat
  | [] => []
  | _ :: rest => check_interval :: run_loop_sleeps check_interval rest

/-- The sleep durations the spec prescribes (§4.3): re-read
`check_interval` from the configuration at every iteration.  This
definition follows the spec's words, for comparison with
`run_loop_sleeps`. -/
def spec_loop_sleeps : List AgentConfig → List Nat
  | [] => []
  | cfg :: rest => cfg.check_interval :: spec_loop_sleeps rest

/-- C8 counterexample: a loop started with the default interval 60 whose
configuration is updated to `check_interval := 5` before the next
iteration still sleeps 60, where the spec's re-reading loop sleeps 5. -/
theorem run_loop_ignores_config_cex :
    run_loop_sleeps 60 [{ defaultConfig with check_interval := 5 }] = [60]
    ∧ spec_loop_sleeps [{ defaultConfig with check_interval := 5 }] = [5]
    ∧ run_loop_sleeps 60 [{ defaultConfig with check_interval := 5 }]
      ≠ spec_loop_sleeps [{ defaultConfig with check_interval := 5 }] := by
  decide

/-- C8 (amended): every iteration of `run_loop` sleeps exactly the
`check_interval` argument fixed when the loop was started, whatever the
configuration rows say at each iteration — config updates to
`check_interval` never reach a running loop. -/
theorem run_loop_sleeps_fixed (check_interval : Nat)
    (cfgs : List AgentConfig) :
    run_loop_sleeps check_interval cfgs
      = List.replicate cfgs.length check_interval := by
  induction cfgs with
  | nil => rfl
  | cons cfg rest ih => simp [run_loop_sleeps, List.replicate, ih]
